import Mathlib

/- Shallow embedding of the session coordinator of the bestbro repository
(the auth context provider hook). The identity provider and the document
store are external collaborators; every awaited provider or store call is
modelled by an explicit outcome parameter (an `Except` value describing how
that call resolves), and each operation of the coordinator becomes a pure
function from its inputs and those outcomes to the resulting session state,
store contents, emitted notifications, call trace and surfaced error. -/

/-- Identity-provider user record, as the code reads it: uid, displayName,
email, emailVerified, photoURL. Nullable fields are `Option`. -/
structure User where
  uid : String
  displayName : Option String
  email : Option String
  emailVerified : Bool
  photoURL : Option String
deriving DecidableEq, Repr

/-- A thrown JS error as the code inspects it: an optional machine-readable
`code` (absent on plain `new Error(msg)`) and a `message` string. -/
structure JsError where
  code : Option String
  message : String
deriving DecidableEq, Repr

/-- A toast notification as the code emits it: optional variant
("destructive" for failures), a title and an optional description. -/
structure Toast where
  variant : Option String
  title : String
  description : Option String
deriving DecidableEq, Repr

/-- Firestore user document written by the coordinator (collection entries
are opaque records, modelled as strings). -/
structure ProfileDoc where
  uid : String
  displayName : Option String
  email : Option String
  photoURL : Option String
  lastLogin : Nat
  createdAt : Nat
  cookbook : List String
  variationBook : List String
deriving DecidableEq, Repr

/-- The remote profile store, keyed by uid; `none` means the document is
absent. Store reads and writes are modelled as succeeding. -/
abbrev ProfileStore := String → Option ProfileDoc

/-- Device-local storage: `getItem` returns the stored string or null. -/
abbrev LocalStore := String → Option String

/-- Coordinator session state: `user` is `currentUser` (the `useState`
cell), `loading` is the loading flag; `isResolved` of the spec is the
negation of `loading`. -/
structure SessionState where
  user : Option User
  loading : Bool
deriving DecidableEq, Repr

/-- Initial state: `useState<User|null>(null)` and `useState(true)`. -/
def initialSessionState : SessionState := { user := none, loading := true }

/-- JS `x || d` where `x` is a string-or-null: null and the empty string
are falsy, so both fall back to `d`. -/
def jsOr (x : Option String) (d : String) : String :=
  match x with
  | none => d
  | some s => if s = "" then d else s

/-- Whether the first character list starts the second. -/
def listStartsWith : List Char → List Char → Bool
  | [], _ => true
  | _ :: _, [] => false
  | p :: ps, x :: xs => (p = x) && listStartsWith ps xs

/-- Whether `pat` occurs as a contiguous run of the second list. -/
def listHasSub (pat : List Char) : List Char → Bool
  | [] => listStartsWith pat []
  | x :: xs => listStartsWith pat (x :: xs) || listHasSub pat xs

/-- JS `s.includes(pat)`: substring containment. -/
def strContains (s pat : String) : Bool := listHasSub pat.data s.data

/-- Tags for the remote calls the coordinator makes, in the order they are
issued; used to state which calls an operation performed. -/
inductive AuthCall where
  | createUser
  | updateProfile
  | sendVerification
  | setDoc
  | signOut
  | deleteUser
  | signInPassword
  | updateDoc
deriving DecidableEq, Repr

/-- Result of one pass of the session-change handler: the session state and
store after the pass, and the rejection (if the handler threw; mutations
made before the throw persist, and statements after it do not run). -/
structure HandleResult where
  st : SessionState
  store : ProfileStore
  err : Option String

/-- The `handleUser` callback registered with the provider session-change
stream. `parse` is the behaviour of `JSON.parse` on this device (it throws
on malformed input, hence `Except`); `ls` is local storage; `now` the clock.
Mirrors the source: a verified user is stored in state before the profile
lookup; a missing profile is seeded from the two local-storage collections
and upserted; a present profile only gets its lastLogin refreshed; no user
or an unverified user clears the state; loading is cleared at the end of
the pass (so not when a parse throw aborts the pass). -/
def handleUser (parse : String → Except String (List String))
    (ls : LocalStore) (now : Nat)
    (st : SessionState) (store : ProfileStore)
    (currentUser : Option User) : HandleResult :=
  match currentUser with
  | some u =>
    if u.emailVerified then
      let st1 : SessionState := { st with user := some u }
      match store u.uid with
      | none =>
        match parse (jsOr (ls "cookbookRecipes") "[]") with
        | .error e => ⟨st1, store, some e⟩
        | .ok localCookbook =>
          match parse (jsOr (ls "variationBook") "[]") with
          | .error e => ⟨st1, store, some e⟩
          | .ok localVariations =>
            let newDoc : ProfileDoc :=
              { uid := u.uid, displayName := u.displayName, email := u.email,
                photoURL := u.photoURL, lastLogin := now, createdAt := now,
                cookbook := localCookbook, variationBook := localVariations }
            ⟨{ st1 with loading := false },
             fun k => if k = u.uid then some newDoc else store k, none⟩
      | some d =>
        ⟨{ st1 with loading := false },
         fun k => if k = u.uid then some { d with lastLogin := now } else store k, none⟩
    else
      ⟨{ st with user := none, loading := false }, store, none⟩
  | none => ⟨{ st with user := none, loading := false }, store, none⟩

/-- The fixed sign-up domain allowlist, verbatim from the source. -/
def ALLOWED_DOMAINS : List String :=
  ["gmail.com", "yahoo.com", "outlook.com", "microsoft.com"]

/-- Splitting a character list at every occurrence of `c`, keeping empty
segments, as JS `split` does on a one-character separator. -/
def splitOnCharList (c : Char) : List Char → List (List Char)
  | [] => [[]]
  | x :: xs =>
    let r := splitOnCharList c xs
    if x = c then [] :: r
    else
      match r with
      | [] => [[x]]
      | y :: ys => (x :: y) :: ys

/-- JS `s.split(c)` for a one-character separator. -/
def splitOnChar (c : Char) (s : String) : List String :=
  (splitOnCharList c s.toList).map (fun l => ⟨l⟩)

/-- ASCII lowercasing of a string, used only to state case-sensitivity. -/
def asciiLower (s : String) : String := ⟨s.data.map Char.toLower⟩

/-- JS `email.split('@')[1]`: the segment after the first `@`, absent
(undefined) when the email holds no `@`. -/
def emailDomain (email : String) : Option String :=
  (splitOnChar '@' email)[1]?

/-- JS `ALLOWED_DOMAINS.includes(email.split('@')[1])`: `includes` of
undefined is false, so an email with no `@` is not allowed. -/
def domainAllowed (email : String) : Bool :=
  match emailDomain email with
  | none => false
  | some d => ALLOWED_DOMAINS.contains d

/-- The error thrown by the domain-allowlist rejection (a plain `Error`,
so it carries no code). -/
def domainNotAllowedError : JsError :=
  { code := none,
    message := "Please use a valid email provider (Gmail, Yahoo, Outlook, or Microsoft)." }

/-- The error thrown when the sign-up catch block classifies the failure
as a verification-email failure. -/
def verificationSendFailedError : JsError :=
  { code := none, message := "Failed to send verification email." }

/-- The error thrown by signInWithEmail on an unverified account. -/
def notVerifiedError : JsError :=
  { code := none, message := "Email not verified" }

/-- Outcomes of the remote calls signUpWithEmail can make, one field per
awaited call site. -/
structure SignUpEnv where
  createAccountResult : Except JsError User
  updateProfileResult : Except JsError Unit
  sendVerificationResult : Except JsError Unit
  setDocResult : Except JsError Unit
  signOutResult : Except JsError Unit
  deleteUserResult : Except JsError Unit

/-- The try block of signUpWithEmail after account creation: updateProfile,
sendEmailVerification, setDoc, then signOut, stopping at the first failing
call. Returns the calls made inside the block and the failure, if any. -/
def signUpTryBlock (env : SignUpEnv) : List AuthCall × Option JsError :=
  match env.updateProfileResult with
  | .error e => ([.updateProfile], some e)
  | .ok _ =>
    match env.sendVerificationResult with
    | .error e => ([.updateProfile, .sendVerification], some e)
    | .ok _ =>
      match env.setDocResult with
      | .error e => ([.updateProfile, .sendVerification, .setDoc], some e)
      | .ok _ =>
        match env.signOutResult with
        | .error e => ([.updateProfile, .sendVerification, .setDoc, .signOut], some e)
        | .ok _ => ([.updateProfile, .sendVerification, .setDoc, .signOut], none)

/-- The catch-block classification, verbatim from the source: the failure is
remapped to `verificationSendFailedError` exactly when its code is
`auth/network-request-failed` or its message contains the substring
`sendEmailVerification`. -/
def shouldRemap (e : JsError) : Bool :=
  e.code == some "auth/network-request-failed" ||
    strContains e.message "sendEmailVerification"

/-- Result of a signUpWithEmail call: the remote calls made, in order, and
the error the returned promise rejects with (none on success). -/
structure SignUpResult where
  calls : List AuthCall
  err : Option JsError
deriving DecidableEq, Repr

/-- signUpWithEmail: allowlist check before any remote call, then account
creation (outside the try block), then the try block; on a try-block
failure, deleteUser is attempted with its own failure swallowed, and the
failure is surfaced either remapped (per `shouldRemap`) or unchanged. -/
def signUpWithEmail (env : SignUpEnv) (email pass name : String) : SignUpResult :=
  if !domainAllowed email then
    { calls := [], err := some domainNotAllowedError }
  else
    match env.createAccountResult with
    | .error e => { calls := [.createUser], err := some e }
    | .ok _ =>
      match signUpTryBlock env with
      | (cs, none) => { calls := .createUser :: cs, err := none }
      | (cs, some e) =>
        { calls := .createUser :: cs ++ [.deleteUser],
          err := some (if shouldRemap e then verificationSendFailedError else e) }

/-- Concrete instance of the `JSON.parse` parameter, agreeing with the real
`JSON.parse` on every input the development evaluates it at: the literal
`[]` parses to the empty array, and the malformed text used in the
counterexamples throws a SyntaxError. -/
def parseModel : String → Except String (List String) :=
  fun s => if s = "[]" then .ok [] else .error "SyntaxError: Unexpected token"

/-- A verified test user. -/
def adaUser : User :=
  { uid := "u1", displayName := some "Ada", email := some "ada@gmail.com",
    emailVerified := true, photoURL := none }

/-- An unverified test user. -/
def eveUser : User :=
  { uid := "u2", displayName := none, email := some "eve@yahoo.com",
    emailVerified := false, photoURL := none }

/-- A profile store with no documents. -/
def emptyProfileStore : ProfileStore := fun _ => none

/-- Local storage with neither collection present. -/
def emptyLocalStore : LocalStore := fun _ => none

/-- Local storage whose cookbook entry holds malformed (non-JSON) text. -/
def badLocalStore : LocalStore :=
  fun k => if k = "cookbookRecipes" then some "not json" else none

/-- A sign-up environment in which every remote call succeeds. -/
def okSignUpEnv : SignUpEnv :=
  { createAccountResult := .ok adaUser, updateProfileResult := .ok (),
    sendVerificationResult := .ok (), setDocResult := .ok (),
    signOutResult := .ok (), deleteUserResult := .ok () }

/-- A provider error of the shape the identity provider actually throws:
a machine-readable code and a message that does not mention the name of
the failing call. -/
def tooManyRequestsError : JsError :=
  { code := some "auth/too-many-requests",
    message := "Firebase: Error (auth/too-many-requests)." }

/-- A sign-up environment in which account creation succeeds and the
verification-email call fails with `tooManyRequestsError`. -/
def stepFailSignUpEnv : SignUpEnv :=
  { okSignUpEnv with sendVerificationResult := .error tooManyRequestsError }

/-- A pending redirect sign-in result, when present: the signed-in user. -/
structure RedirectResult where
  user : User
deriving DecidableEq, Repr

/-- The welcome toast of the redirect-result check: display name with the
generic fallback (JS falsy, so null and the empty string both fall back). -/
def redirectWelcomeToast (displayName : Option String) : Toast :=
  { variant := none,
    title := "Welcome back, " ++ jsOr displayName "friend" ++ "!",
    description := some "You\x27ve successfully signed in." }

/-- The generic failure toast of the redirect-result check. -/
def redirectFailToast : Toast :=
  { variant := some "destructive", title := "Sign-In Failed",
    description := some "An unexpected error occurred during sign-in." }

/-- The startup redirect-result check: on a present result, emit the
welcome toast; on a missing result, nothing; on failure, emit the generic
failure toast unless the error code is auth/web-storage-unsupported. The
check never touches the session state and never rethrows. -/
def redirectResultCheck (st : SessionState)
    (outcome : Except JsError (Option RedirectResult)) :
    SessionState × List Toast :=
  match outcome with
  | .ok none => (st, [])
  | .ok (some r) => (st, [redirectWelcomeToast r.user.displayName])
  | .error e =>
    if e.code ≠ some "auth/web-storage-unsupported" then (st, [redirectFailToast])
    else (st, [])

/-- Outcomes of the remote calls signInWithEmail can make. -/
structure SignInEnv where
  credentialResult : Except JsError User
  forcedSignOutResult : Except JsError Unit

/-- The welcome toast of signInWithEmail (title only, no description). -/
def signInWelcomeToast (displayName : Option String) : Toast :=
  { variant := none,
    title := "Welcome back, " ++ jsOr displayName "friend" ++ "!",
    description := none }

/-- Result of a signInWithEmail call: session state and store afterwards,
the remote calls made, the toasts emitted, and the rejection if any. -/
structure SignInResult where
  st : SessionState
  store : ProfileStore
  calls : List AuthCall
  toasts : List Toast
  err : Option JsError

/-- signInWithEmail: credential verification, then the unverified check
(forced provider sign-out, then throw), then the lastLogin update and the
welcome toast; every failure is logged and rethrown unchanged. The
function never writes the session state cell. An updateDoc on an absent
document is modelled as leaving the store unchanged. -/
def signInWithEmail (env : SignInEnv) (now : Nat) (st : SessionState)
    (store : ProfileStore) (email pass : String) : SignInResult :=
  match env.credentialResult with
  | .error e => ⟨st, store, [.signInPassword], [], some e⟩
  | .ok u =>
    if !u.emailVerified then
      match env.forcedSignOutResult with
      | .ok _ => ⟨st, store, [.signInPassword, .signOut], [], some notVerifiedError⟩
      | .error e => ⟨st, store, [.signInPassword, .signOut], [], some e⟩
    else
      ⟨st,
       fun k =>
         if k = u.uid then
           match store u.uid with
           | some d => some { d with lastLogin := now }
           | none => store u.uid
         else store k,
       [.signInPassword, .updateDoc],
       [signInWelcomeToast u.displayName], none⟩

/-- sendPasswordReset: the provider call is awaited inside a try block
whose catch only logs, so the operation resolves with no error for every
outcome. -/
def sendPasswordReset (email : String) (outcome : Except JsError Unit) :
    Option JsError :=
  match outcome with
  | .ok _ => none
  | .error _ => none

/-- The sign-out confirmation toast. -/
def signedOutToast : Toast :=
  { variant := none, title := "Signed Out",
    description := some "You have been successfully signed out." }

/-- The sign-out failure toast, carrying the error message. -/
def signOutFailedToast (msg : String) : Toast :=
  { variant := some "destructive", title := "Sign-Out Failed",
    description := some msg }

/-- signOut: on provider success, clear the user and confirm; on provider
failure, leave the state untouched, emit the failure toast with the error
message, and swallow the error (nothing is rethrown). -/
def signOut (st : SessionState) (outcome : Except JsError Unit) :
    SessionState × List Toast × Option JsError :=
  match outcome with
  | .ok _ => ({ st with user := none }, [signedOutToast], none)
  | .error e => (st, [signOutFailedToast e.message], none)

/-- A sign-in environment resolving to the unverified test user, with the
forced sign-out succeeding. -/
def unverifiedSignInEnv : SignInEnv :=
  { credentialResult := .ok eveUser, forcedSignOutResult := .ok () }

/-- Claim C1: after any session-change notification, currentUser is exactly
the reported user when that user exists and has a verified email, and none
otherwise; in particular it is none whenever the reported user is absent or
unverified, and it is non-null only if the notification reported a verified
email. -/
theorem handleUser_verified_gate (parse : String → Except String (List String))
    (ls : LocalStore) (now : Nat) (st : SessionState) (store : ProfileStore)
    (currentUser : Option User) :
    (handleUser parse ls now st store currentUser).st.user =
      match currentUser with
      | none => none
      | some x => if x.emailVerified then some x else none := by
  cases currentUser with
  | none => rfl
  | some x =>
    by_cases h : x.emailVerified
    · simp only [handleUser, h, if_true]
      cases hs : store x.uid with
      | none =>
        cases parse (jsOr (ls "cookbookRecipes") "[]") with
        | error e => rfl
        | ok a =>
          cases parse (jsOr (ls "variationBook") "[]") with
          | error e => rfl
          | ok b => rfl
      | some d => rfl
    · simp [handleUser, h]

/-- Claim C3: signUpWithEmail rejects with the DomainNotAllowed error and
makes no remote call whenever the domain suffix of the email is absent or
outside the allowlist, and proceeds to the account-creation call (the first
remote call made) whenever the suffix is in the allowlist. -/
theorem signUp_domain_gate (env : SignUpEnv) (email pass name : String) :
    ((∀ d, emailDomain email = some d → d ∉ ALLOWED_DOMAINS) →
      signUpWithEmail env email pass name =
        { calls := [], err := some domainNotAllowedError }) ∧
    (∀ d, emailDomain email = some d → d ∈ ALLOWED_DOMAINS →
      (signUpWithEmail env email pass name).calls.head? = some AuthCall.createUser) := by
  constructor
  · intro h
    have hda : domainAllowed email = false := by
      unfold domainAllowed
      cases hd : emailDomain email with
      | none => rfl
      | some d => simp [List.contains, List.elem_eq_mem, h d hd]
    simp [signUpWithEmail, hda]
  · intro d hd hmem
    have hda : domainAllowed email = true := by
      unfold domainAllowed
      rw [hd]
      simp [List.contains, List.elem_eq_mem, hmem]
    simp only [signUpWithEmail, hda, Bool.not_true, Bool.false_eq_true, if_false]
    cases env.createAccountResult with
    | error e => rfl
    | ok u =>
      rcases hb : signUpTryBlock env with ⟨cs, oe⟩
      cases oe <;> simp [hb]

/-- Witness for C3 at the concrete inputs of the spec scenario: sign-up
with a contoso.io address fails the allowlist check with no calls made. -/
theorem signUp_domain_gate_witness :
    signUpWithEmail okSignUpEnv "user@contoso.io" "secret1" "Ada" =
      { calls := [], err := some domainNotAllowedError } :=
  (signUp_domain_gate okSignUpEnv "user@contoso.io" "secret1" "Ada").1
    (fun d hd => by
      have : d = "contoso.io" := by
        have h : emailDomain "user@contoso.io" = some "contoso.io" := by decide
        rw [h] at hd
        exact (Option.some.injEq _ _).mp hd.symm
      rw [this]
      decide)

/-- Claim C9: the allowlist check is case-sensitive: an email whose domain
suffix matches an allowed domain only up to letter case is rejected before
any remote call. -/
theorem signUp_domain_case_sensitive (env : SignUpEnv) (email pass name : String)
    (d : String) (hd : emailDomain email = some d)
    (hcase : asciiLower d ∈ ALLOWED_DOMAINS) (hne : d ∉ ALLOWED_DOMAINS) :
    signUpWithEmail env email pass name =
      { calls := [], err := some domainNotAllowedError } := by
  have hda : domainAllowed email = false := by
    unfold domainAllowed
    rw [hd]
    simp [List.contains, List.elem_eq_mem, hne]
  simp [signUpWithEmail, hda]

/-- Witness for C9: an address at Gmail.com (allowed only up to case) is
rejected with no remote calls. -/
theorem signUp_domain_case_sensitive_witness :
    signUpWithEmail okSignUpEnv "user@Gmail.com" "pw" "Ada" =
      { calls := [], err := some domainNotAllowedError } :=
  signUp_domain_case_sensitive okSignUpEnv "user@Gmail.com" "pw" "Ada"
    "Gmail.com" (by decide) (by decide) (by decide)

/-- Counterexample to claim C2 as stated: in `stepFailSignUpEnv` account
creation succeeds and the failure originates from the verification-email
step, it is not a network error, yet the surfaced error is the original
provider error, not the VerificationSendFailed error; cleanup was
attempted (deleteUser appears in the trace). The code classifies by error
code and message substring, not by the step that failed. -/
theorem signUp_step_origin_cex :
    (signUpWithEmail stepFailSignUpEnv "ada@gmail.com" "pw" "Ada").calls =
      [AuthCall.createUser, AuthCall.updateProfile, AuthCall.sendVerification,
       AuthCall.deleteUser] ∧
    (signUpWithEmail stepFailSignUpEnv "ada@gmail.com" "pw" "Ada").err =
      some tooManyRequestsError ∧
    tooManyRequestsError ≠ verificationSendFailedError := by
  refine ⟨by decide, by decide, by decide⟩

/-- Claim C2 as amended: when account creation succeeds and the try block
fails, deleteUser is attempted, its outcome never changes the result
(cleanup failures are swallowed), and the surfaced error is
VerificationSendFailed exactly when the failure's code is
auth/network-request-failed or its message contains the substring
sendEmailVerification; otherwise the original failure is surfaced
unchanged. -/
theorem signUp_compensation (env : SignUpEnv) (email pass name : String)
    (u : User) (cs : List AuthCall) (e : JsError)
    (hdom : domainAllowed email = true)
    (hcr : env.createAccountResult = .ok u)
    (htb : signUpTryBlock env = (cs, some e)) :
    AuthCall.deleteUser ∈ (signUpWithEmail env email pass name).calls ∧
    (signUpWithEmail env email pass name).err =
      some (if shouldRemap e then verificationSendFailedError else e) ∧
    (∀ d, signUpWithEmail { env with deleteUserResult := d } email pass name =
      signUpWithEmail env email pass name) := by
  refine ⟨?_, ?_, ?_⟩
  · simp [signUpWithEmail, hdom, hcr, htb]
  · simp [signUpWithEmail, hdom, hcr, htb]
  · intro d
    cases env
    rfl

/-- Witness for the amended C2 at a concrete environment: the cleanup call
is attempted when the verification-email step fails. -/
theorem signUp_compensation_witness :
    AuthCall.deleteUser ∈ (signUpWithEmail stepFailSignUpEnv "ada@gmail.com" "pw" "Ada").calls :=
  (signUp_compensation stepFailSignUpEnv "ada@gmail.com" "pw" "Ada" adaUser
    [AuthCall.updateProfile, AuthCall.sendVerification] tooManyRequestsError
    (by decide) rfl rfl).1

/-- Counterexample to claim C4 as stated: with a malformed stored value for
the cookbook collection, the first-login provisioning pass does not default
to the empty sequence and does not complete without error: the handler
rejects with the parse error and no Profile document is upserted. -/
theorem handleUser_malformed_cex :
    (handleUser parseModel badLocalStore 0 initialSessionState emptyProfileStore
      (some adaUser)).err = some "SyntaxError: Unexpected token" ∧
    (handleUser parseModel badLocalStore 0 initialSessionState emptyProfileStore
      (some adaUser)).store "u1" = none := by
  refine ⟨by decide, by decide⟩

/-- Claim C4 as amended: on a first-login provisioning pass (verified user,
profile absent), a missing stored value for either collection defaults to
the empty sequence and the pass completes without error, upserting the new
Profile seeded with those collections; a malformed stored value (one the
JSON parser throws on) instead aborts the pass with the parse error and no
Profile is upserted. -/
theorem handleUser_seed_defaults (parse : String → Except String (List String))
    (ls : LocalStore) (now : Nat) (st : SessionState) (store : ProfileStore)
    (u : User)
    (hp : parse "[]" = .ok [])
    (hv : u.emailVerified = true)
    (habs : store u.uid = none) :
    ((ls "cookbookRecipes" = none ∧ ls "variationBook" = none) →
      (handleUser parse ls now st store (some u)).err = none ∧
      (handleUser parse ls now st store (some u)).store u.uid =
        some { uid := u.uid, displayName := u.displayName, email := u.email,
               photoURL := u.photoURL, lastLogin := now, createdAt := now,
               cookbook := [], variationBook := [] }) ∧
    (∀ e, parse (jsOr (ls "cookbookRecipes") "[]") = .error e →
      (handleUser parse ls now st store (some u)).err = some e ∧
      (handleUser parse ls now st store (some u)).store = store) ∧
    (∀ e a, parse (jsOr (ls "cookbookRecipes") "[]") = .ok a →
      parse (jsOr (ls "variationBook") "[]") = .error e →
      (handleUser parse ls now st store (some u)).err = some e ∧
      (handleUser parse ls now st store (some u)).store = store) := by
  refine ⟨?_, ?_, ?_⟩
  · rintro ⟨h1, h2⟩
    simp [handleUser, hv, habs, h1, h2, jsOr, hp]
  · intro e he
    simp [handleUser, hv, habs, he]
  · intro e a ha he
    simp [handleUser, hv, habs, ha, he]

/-- Witness for the amended C4: with both collections missing, the pass
completes and seeds the new Profile with empty collections. -/
theorem handleUser_seed_defaults_witness :
    (handleUser parseModel emptyLocalStore 5 initialSessionState emptyProfileStore
      (some adaUser)).err = none ∧
    (handleUser parseModel emptyLocalStore 5 initialSessionState emptyProfileStore
      (some adaUser)).store "u1" =
      some { uid := "u1", displayName := some "Ada", email := some "ada@gmail.com",
             photoURL := none, lastLogin := 5, createdAt := 5,
             cookbook := [], variationBook := [] } := by
  have h := (handleUser_seed_defaults parseModel emptyLocalStore 5
    initialSessionState emptyProfileStore adaUser rfl rfl rfl).1 ⟨rfl, rfl⟩
  exact ⟨h.1, h.2⟩

/-- Counterexample to claim C8 as stated: a first notification for a
verified user with an absent profile and a malformed stored collection
aborts the handler before the loading flag is cleared, so isResolved stays
false after that notification was delivered. -/
theorem isResolved_malformed_cex :
    initialSessionState.loading = true ∧
    (handleUser parseModel badLocalStore 0 initialSessionState emptyProfileStore
      (some adaUser)).st.loading = true := by
  refine ⟨rfl, by decide⟩

/-- Claim C8 as amended: the loading flag is true before any notification,
and the first notification clears it in every case in which the handler
runs to completion: always in the no-user and unverified branches, and in
the verified branch whenever the pass does not reject; a pass aborted by a
parse throw leaves it set. -/
theorem isResolved_after_first :
    initialSessionState.loading = true ∧
    (∀ parse ls now st store,
      (handleUser parse ls now st store none).st.loading = false) ∧
    (∀ parse ls now st store u, u.emailVerified = false →
      (handleUser parse ls now st store (some u)).st.loading = false) ∧
    (∀ parse ls now st store cu,
      (handleUser parse ls now st store cu).err = none →
      (handleUser parse ls now st store cu).st.loading = false) := by
  refine ⟨rfl, fun parse ls now st store => rfl, ?_, ?_⟩
  · intro parse ls now st store u hv
    simp [handleUser, hv]
  · intro parse ls now st store cu herr
    cases cu with
    | none => rfl
    | some u =>
      by_cases hv : u.emailVerified
      · simp only [handleUser, hv, if_true] at herr ⊢
        cases hs : store u.uid with
        | some d => simp [hs]
        | none =>
          simp only [hs] at herr ⊢
          cases h1 : parse (jsOr (ls "cookbookRecipes") "[]") with
          | error e => simp [h1] at herr
          | ok a =>
            cases h2 : parse (jsOr (ls "variationBook") "[]") with
            | error e => simp [h1, h2] at herr
            | ok b => rfl
      · simp [handleUser, hv]

/-- Witness for the amended C8: the unverified branch clears the loading
flag. -/
theorem isResolved_after_first_witness :
    (handleUser parseModel emptyLocalStore 0 initialSessionState emptyProfileStore
      (some eveUser)).st.loading = false :=
  isResolved_after_first.2.2.1 parseModel emptyLocalStore 0 initialSessionState
    emptyProfileStore eveUser rfl

/-- Claim C5: a sign-in whose credential check succeeds but returns an
unverified user forces a provider sign-out and rejects with the
NotVerified error; the session state is untouched (currentUser stays what
it was, in particular none), no welcome toast fires, and no lastLogin
update is written; and the session-change notification for that unverified
user also resolves currentUser to none. -/
theorem signIn_unverified (env : SignInEnv) (now : Nat) (st : SessionState)
    (store : ProfileStore) (email pass : String) (u : User)
    (hc : env.credentialResult = .ok u)
    (hv : u.emailVerified = false)
    (hs : env.forcedSignOutResult = .ok ()) :
    (signInWithEmail env now st store email pass).calls =
      [AuthCall.signInPassword, AuthCall.signOut] ∧
    (signInWithEmail env now st store email pass).err = some notVerifiedError ∧
    (signInWithEmail env now st store email pass).st = st ∧
    (signInWithEmail env now st store email pass).toasts = [] ∧
    (signInWithEmail env now st store email pass).store = store ∧
    (∀ parse ls st2 store2,
      (handleUser parse ls now st2 store2 (some u)).st.user = none) := by
  refine ⟨?_, ?_, ?_, ?_, ?_, ?_⟩
  all_goals first
    | (intro parse ls st2 store2; simp [handleUser, hv])
    | simp [signInWithEmail, hc, hv, hs]

/-- Witness for C5 at the unverified test user. -/
theorem signIn_unverified_witness :
    (signInWithEmail unverifiedSignInEnv 0 initialSessionState emptyProfileStore
      "eve@yahoo.com" "pw").err = some notVerifiedError :=
  (signIn_unverified unverifiedSignInEnv 0 initialSessionState emptyProfileStore
    "eve@yahoo.com" "pw" eveUser rfl rfl rfl).2.1

/-- Claim C6: sendPasswordReset resolves without error for every email and
every provider outcome, including failures. -/
theorem sendPasswordReset_never_raises (email : String)
    (outcome : Except JsError Unit) :
    sendPasswordReset email outcome = none := by
  cases outcome <;> rfl

/-- Claim C7: the redirect-result check never modifies the session state;
a present result emits exactly the welcome toast built from the display
name with the generic fallback; a missing result emits nothing; a failure
with code auth/web-storage-unsupported is suppressed silently; any other
failure emits exactly the generic failure toast (nothing is rethrown:
the check resolves to a toast list in every case). -/
theorem redirect_check_contract (st : SessionState)
    (outcome : Except JsError (Option RedirectResult)) :
    (redirectResultCheck st outcome).1 = st ∧
    (∀ r, outcome = .ok (some r) →
      (redirectResultCheck st outcome).2 = [redirectWelcomeToast r.user.displayName]) ∧
    (outcome = .ok none → (redirectResultCheck st outcome).2 = []) ∧
    (∀ e, outcome = .error e → e.code = some "auth/web-storage-unsupported" →
      (redirectResultCheck st outcome).2 = []) ∧
    (∀ e, outcome = .error e → e.code ≠ some "auth/web-storage-unsupported" →
      (redirectResultCheck st outcome).2 = [redirectFailToast]) := by
  refine ⟨?_, ?_, ?_, ?_, ?_⟩
  · cases outcome with
    | ok o => cases o <;> rfl
    | error e =>
      simp only [redirectResultCheck]
      split <;> rfl
  · intro r h
    subst h
    rfl
  · intro h
    subst h
    rfl
  · intro e h hc
    subst h
    simp [redirectResultCheck, hc]
  · intro e h hc
    subst h
    simp [redirectResultCheck, hc]

/-- Witness for C7: a redirect failure with an ordinary error code emits
the generic failure toast. -/
theorem redirect_check_contract_witness :
    (redirectResultCheck initialSessionState
      (Except.error { code := some "auth/internal-error", message := "boom" })).2 =
      [redirectFailToast] :=
  (redirect_check_contract initialSessionState
    (Except.error { code := some "auth/internal-error", message := "boom" })).2.2.2.2
    { code := some "auth/internal-error", message := "boom" } rfl (by decide)

/-- Claim C10: when the provider sign-out fails, the coordinator leaves
currentUser unchanged, emits a failure toast carrying the error message,
and rethrows nothing; currentUser is cleared only on provider success. -/
theorem signOut_failure_behavior (st : SessionState) (e : JsError) :
    (signOut st (Except.error e)).1.user = st.user ∧
    (signOut st (Except.error e)).2.1 = [signOutFailedToast e.message] ∧
    (signOut st (Except.error e)).2.2 = none ∧
    (signOut st (Except.ok ())).1.user = none := by
  refine ⟨rfl, rfl, rfl, rfl⟩
